import Mathlib

/-
Shallow embedding of the gesture-to-playback controller:
  - hand_tracker.py : HandTracker (swipe detection, pinch, finger counting,
    position history, gesture cooldown)
  - main.py : GestureSpotifyController (stability filter, gesture arbitration,
    scrub state machine, per-frame control loop)
  - spotify_controller.py : command sink (external; commands are modelled as an
    emitted Command list, backend reads as an Option TrackData input per frame)

Pixel coordinates are integers (the source converts normalized landmarks with
int(lm.x * w)).  Wall-clock time is modelled as an integer number of
milliseconds; every time constant in the source has at most one decimal place
of seconds, so scaling by 1000 represents all thresholds exactly (0.3s = 300,
0.6s = 600, 0.8s = 800, 1.0s = 1000, 1.5s = 1500, 2.0s = 2000, 3.0s = 3000,
0.5s = 500, 0.2s = 200).  Float comparisons in the source involve only integer
pixel values and decimal constants, so they are exact over the integers:
  - Euclidean distance < 40 on integer points is squared-distance < 1600;
  - abs(dx) > 1.5 * dy on integers is 2*abs(dx) > 3*dy;
  - wrist_y < frame_height * 0.85 is 20*wrist_y < 17*frame_height.
-/

namespace GestureCtl

abbrev Point := Int × Int

abbrev Landmarks := List Point

inductive Gesture
  | swipe_left
  | swipe_right
  | pinch
deriving DecidableEq, Repr

inductive SwipeDir
  | left
  | right
deriving DecidableEq, Repr

inductive VolDir
  | up
  | down
deriving DecidableEq, Repr

/-- Commands sent to the playback backend (spotify_controller.py calls). -/
inductive Command
  | previousTrack
  | nextTrack
  | togglePlayPause
  | volumeDelta (delta : Int)
  | seekTo (position_ms : Int)
deriving DecidableEq, Repr

/-- The fields of get_current_track_info used by the control logic. -/
structure TrackData where
  duration_ms : Int
  progress_ms : Int
deriving DecidableEq, Repr

/-- Wrist position: landmark index 0 (source: pos[0], landmarks[0]). -/
def wristOf (lms : Landmarks) : Point := lms.headD (0, 0)

/-- Deque append with maxlen 10 (HandTracker.position_history). -/
def appendHistory (h : List Landmarks) (x : Landmarks) : List Landmarks :=
  let h2 := h ++ [x]
  if h2.length > 10 then h2.drop (h2.length - 10) else h2

/-- Squared Euclidean distance between two pixel points. -/
def sqDist (p q : Point) : Int := (p.1 - q.1) ^ 2 + (p.2 - q.2) ^ 2

/-- HandTracker.detect_pinch: thumb tip (4) to index tip (8) distance < 40px. -/
def detect_pinch (lms : Landmarks) : Bool :=
  sqDist (lms.getD 4 (0, 0)) (lms.getD 8 (0, 0)) < 1600

/-- HandTracker.count_extended_fingers. -/
def count_extended_fingers (lms : Landmarks) : Nat :=
  let finger_tips : List Nat := [4, 8, 12, 16, 20]
  let finger_pips : List Nat := [3, 6, 10, 14, 18]
  (List.range 5).foldl
    (fun acc i =>
      let tip := lms.getD (finger_tips.getD i 0) (0, 0)
      let pip := lms.getD (finger_pips.getD i 0) (0, 0)
      if i = 0 then
        if (tip.1 - pip.1).natAbs > 30 then acc + 1 else acc
      else
        if tip.2 < pip.2 - 10 then acc + 1 else acc)
    0

/-- HandTracker.detect_swipe.  Takes the current position history, returns the
classification together with the post-call history (the source clears the
deque as a side effect exactly on a positive classification). -/
def detect_swipe (hist : List Landmarks) : Option Gesture × List Landmarks :=
  if hist.length < 8 then (none, hist)
  else
    let wrist_positions := hist.map wristOf
    let s := wrist_positions.headD (0, 0)
    let e := wrist_positions.getLastD (0, 0)
    let horizontal_distance := e.1 - s.1
    let vertical_distance := (e.2 - s.2).natAbs
    if horizontal_distance.natAbs > 120 ∧ vertical_distance < 80 then
      if 2 * horizontal_distance.natAbs > 3 * vertical_distance then
        if horizontal_distance > 0 then (some Gesture.swipe_right, [])
        else (some Gesture.swipe_left, [])
      else (none, hist)
    else (none, hist)

/-- Mutable state of GestureSpotifyController plus the track-info cache
(main.py, GestureSpotifyController.__init__). -/
structure ControllerState where
  spotify_enabled : Bool
  scrubbing_active : Bool
  scrub_start_x : Option Int
  scrub_start_progress : Option Int
  last_scrub_time : ℤ
  scrub_end_time : ℤ
  last_volume_gesture : Option VolDir
  last_volume_time : ℤ
  volume_gesture_armed : Bool
  last_play_pause_time : ℤ
  play_pause_armed : Bool
  last_swipe_time : ℤ
  last_swipe_direction : Option SwipeDir
  stable_finger_count : Option Nat
  finger_count_start_time : ℤ
  hand_first_seen_time : ℤ
  hand_was_visible : Bool
  cached_track_info : Option TrackData
  last_track_fetch_time : ℤ
deriving DecidableEq, Repr

/-- Mutable state of HandTracker used by the control loop. -/
structure TrackerState where
  position_history : List Landmarks
  last_gesture_time : ℤ
deriving DecidableEq, Repr

def post_scrub_cooldown : ℤ := 2000
def stability_threshold : ℤ := 300
def hand_appearance_cooldown : ℤ := 600
def swipe_same_direction_cooldown : ℤ := 800
def swipe_opposite_direction_cooldown : ℤ := 3000
def swipe_to_other_action_cooldown : ℤ := 1000
def track_fetch_interval : ℤ := 2000
def play_pause_cooldown : ℤ := 1500
def volume_cooldown : ℤ := 1000
def tracker_cooldown_seconds : ℤ := 500

/-- Initial controller state (GestureSpotifyController.__init__); the flag
records whether SpotifyController() construction succeeded. -/
def initControllerState (enabled : Bool) : ControllerState :=
  { spotify_enabled := enabled
    scrubbing_active := false
    scrub_start_x := none
    scrub_start_progress := none
    last_scrub_time := 0
    scrub_end_time := 0
    last_volume_gesture := none
    last_volume_time := 0
    volume_gesture_armed := true
    last_play_pause_time := 0
    play_pause_armed := true
    last_swipe_time := 0
    last_swipe_direction := none
    stable_finger_count := none
    finger_count_start_time := 0
    hand_first_seen_time := 0
    hand_was_visible := false
    cached_track_info := none
    last_track_fetch_time := 0 }

def initTrackerState : TrackerState :=
  { position_history := [], last_gesture_time := 0 }

/-- GestureSpotifyController.get_stable_finger_count. -/
def get_stable_finger_count (s : ControllerState) (finger_count : Nat) (now : ℤ) :
    Option Nat × ControllerState :=
  if some finger_count ≠ s.stable_finger_count then
    (none, { s with stable_finger_count := some finger_count, finger_count_start_time := now })
  else if now - s.finger_count_start_time ≥ stability_threshold then
    (some finger_count, s)
  else
    (none, s)

/-- Result of get_track_info_cached.  The attempted flag records whether the
call dereferenced self.spotify (a backend call, and an AttributeError when
SpotifyController construction failed). -/
structure FetchResult where
  info : Option TrackData
  ctrl : ControllerState
  attempted : Bool
deriving DecidableEq, Repr

/-- GestureSpotifyController.get_track_info_cached.  The backend argument is
what self.spotify.get_current_track_info() would return this frame. -/
def get_track_info_cached (s : ControllerState) (now : ℤ) (backend : Option TrackData) :
    FetchResult :=
  if now - s.last_track_fetch_time > track_fetch_interval then
    { info := backend
      ctrl := { s with cached_track_info := backend, last_track_fetch_time := now }
      attempted := true }
  else
    { info := s.cached_track_info, ctrl := s, attempted := false }

/-- Swipe block of handle_gestures (main.py lines 77-103). -/
def swipePhase (s : ControllerState) (gesture : Option Gesture) (now : ℤ) :
    ControllerState × List Command :=
  let time_since_swipe := now - s.last_swipe_time
  match gesture with
  | some Gesture.swipe_left =>
      let cooldown :=
        match s.last_swipe_direction with
        | some SwipeDir.left => swipe_same_direction_cooldown
        | some SwipeDir.right => swipe_opposite_direction_cooldown
        | none => 0
      if time_since_swipe > cooldown then
        ({ s with last_swipe_time := now, last_swipe_direction := some SwipeDir.left },
          [Command.previousTrack])
      else (s, [])
  | some Gesture.swipe_right =>
      let cooldown :=
        match s.last_swipe_direction with
        | some SwipeDir.right => swipe_same_direction_cooldown
        | some SwipeDir.left => swipe_opposite_direction_cooldown
        | none => 0
      if time_since_swipe > cooldown then
        ({ s with last_swipe_time := now, last_swipe_direction := some SwipeDir.right },
          [Command.nextTrack])
      else (s, [])
  | _ => (s, [])

/-- Play/pause block of handle_gestures (main.py lines 105-116).  Runs on the
state left by the swipe block, so the swipe-suppression window sees a swipe
fired earlier in the same call. -/
def ppPhase (s : ControllerState) (stable_count : Option Nat) (now : ℤ) :
    ControllerState × List Command :=
  let play_pause_in_cooldown := now - s.last_play_pause_time < play_pause_cooldown
  let after_swipe_cooldown := now - s.last_swipe_time < swipe_to_other_action_cooldown
  if stable_count = some 1 then
    if s.play_pause_armed = true ∧ ¬ play_pause_in_cooldown ∧ ¬ after_swipe_cooldown then
      ({ s with last_play_pause_time := now, play_pause_armed := false },
        [Command.togglePlayPause])
    else (s, [])
  else if stable_count ≠ none then
    if ¬ play_pause_in_cooldown then ({ s with play_pause_armed := true }, [])
    else (s, [])
  else (s, [])

/-- Volume block of handle_gestures (main.py lines 118-140). -/
def volPhase (s : ControllerState) (stable_count : Option Nat) (now : ℤ) :
    ControllerState × List Command :=
  let volume_in_cooldown := now - s.last_volume_time < volume_cooldown
  let after_swipe_cooldown := now - s.last_swipe_time < swipe_to_other_action_cooldown
  match stable_count with
  | none => (s, [])
  | some c =>
      if c ≠ 2 ∧ c ≠ 3 then
        if ¬ volume_in_cooldown then
          ({ s with volume_gesture_armed := true, last_volume_gesture := none }, [])
        else (s, [])
      else if volume_in_cooldown ∨ after_swipe_cooldown then (s, [])
      else if s.volume_gesture_armed = false then (s, [])
      else if c = 2 ∧ s.last_volume_gesture ≠ some VolDir.up then
        ({ s with
            last_volume_gesture := some VolDir.up
            last_volume_time := now
            volume_gesture_armed := false },
          [Command.volumeDelta 10])
      else if c = 3 ∧ s.last_volume_gesture ≠ some VolDir.down then
        ({ s with
            last_volume_gesture := some VolDir.down
            last_volume_time := now
            volume_gesture_armed := false },
          [Command.volumeDelta (-10)])
      else (s, [])

/-- GestureSpotifyController.handle_gestures.  Returns the updated state and
the commands issued to the backend during this call, in order. -/
def handle_gestures (s : ControllerState) (gesture : Option Gesture)
    (finger_count : Nat) (now : ℤ) : ControllerState × List Command :=
  if s.spotify_enabled = false then (s, [])
  else
    let sp := get_stable_finger_count s finger_count now
    let sw := swipePhase sp.2 gesture now
    let pp := ppPhase sw.1 sp.1 now
    let vol := volPhase pp.1 sp.1 now
    (vol.1, sw.2 ++ pp.2 ++ vol.2)

/-- Fold handle_gestures over a timed sequence of raw finger counts with no
swipe or pinch gesture, accumulating all emitted commands. -/
def runGestures (s : ControllerState) (inputs : List (ℤ × Nat)) :
    ControllerState × List Command :=
  inputs.foldl
    (fun acc inp =>
      let r := handle_gestures acc.1 none inp.2 inp.1
      (r.1, acc.2 ++ r.2))
    (s, [])

/-- Per-hand data computed each frame in the run loop (main.py lines 218-229). -/
structure HandData where
  landmarks : Landmarks
  finger_count : Nat
  is_pinching : Bool
  wrist_x : Int
  wrist_y : Int
deriving DecidableEq, Repr

def mkHandData (lms : Landmarks) : HandData :=
  { landmarks := lms
    finger_count := count_extended_fingers lms
    is_pinching := detect_pinch lms
    wrist_x := (wristOf lms).1
    wrist_y := (wristOf lms).2 }

/-- Scrub-eligibility check (main.py lines 231-241): with exactly two hands,
one hand with at least 4 extended fingers (trigger) and the other pinching
(control), checked both ways.  Returns (trigger, control). -/
def scrubPair (hands : List HandData) : Option (HandData × HandData) :=
  match hands with
  | [h1, h2] =>
      if h1.finger_count ≥ 4 ∧ h2.is_pinching = true then some (h1, h2)
      else if h2.finger_count ≥ 4 ∧ h1.is_pinching = true then some (h2, h1)
      else none
  | _ => none

/-- Result of one iteration of the run loop.  crashed records that the source
would raise AttributeError: self.spotify is dereferenced on a path not guarded
by spotify_enabled while SpotifyController construction failed. -/
structure FrameResult where
  ctrl : ControllerState
  tracker : TrackerState
  commands : List Command
  crashed : Bool
deriving DecidableEq, Repr

/-- Track-info overlay fetch at the top of each loop iteration, guarded by
spotify_enabled (main.py line 195); only the cache state matters later. -/
def displayState (cs : ControllerState) (now : ℤ) (backend : Option TrackData) :
    ControllerState :=
  if cs.spotify_enabled = true then (get_track_info_cached cs now backend).ctrl else cs

/-- One iteration of GestureSpotifyController.run (main.py lines 169-338),
restricted to the state-and-command relevant part.  hands is the detection
output already converted to pixel landmark lists; backend is what a
get_current_track_info() call would return at this instant. -/
def frameStep (cs0 : ControllerState) (ts0 : TrackerState) (hands : List Landmarks)
    (frame_height : Int) (now : ℤ) (backend : Option TrackData) : FrameResult :=
  let cs1 := displayState cs0 now backend
  if hands = [] then
    -- No hands (lines 326-333): scrub state dropped WITHOUT recording an end time
    let cs2 := { cs1 with
      hand_was_visible := false
      scrubbing_active := false
      scrub_start_x := none
      scrub_start_progress := none }
    let r := handle_gestures cs2 none 0 now
    { ctrl := r.1, tracker := ts0, commands := r.2, crashed := false }
  else
    -- Hand appearance tracking (lines 208-216)
    let appeared := cs1.hand_was_visible = false
    let cs2 := if appeared then
        { cs1 with hand_first_seen_time := now, hand_was_visible := true }
      else cs1
    let ts1 := if appeared then { ts0 with position_history := [] } else ts0
    let in_hand_appearance_cooldown := now - cs2.hand_first_seen_time < hand_appearance_cooldown
    let all_hands_data := hands.map mkHandData
    match scrubPair all_hands_data with
    | some pair =>
        -- Two-hand scrub path (lines 243-269); note: no appearance-cooldown check here
        let control := pair.2
        let pinch_x := control.wrist_x
        if cs2.scrubbing_active = false then
          let f := get_track_info_cached cs2 now backend
          let cs3 := { f.ctrl with
            scrubbing_active := true
            scrub_start_x := some pinch_x
            scrub_start_progress :=
              match f.info with
              | some t => some t.progress_ms
              | none => cs2.scrub_start_progress }
          { ctrl := cs3, tracker := ts1, commands := [],
            crashed := !cs2.spotify_enabled && f.attempted }
        else
          match cs2.scrub_start_x, cs2.scrub_start_progress with
          | some x0, some p0 =>
              let delta_x := pinch_x - x0
              let scrub_ms := delta_x * 250
              if scrub_ms.natAbs > 500 ∧ now - cs2.last_scrub_time > 200 then
                let f := get_track_info_cached cs2 now backend
                match f.info with
                | some t =>
                    let new_position := max 0 (min (p0 + scrub_ms) (t.duration_ms - 1000))
                    if cs2.spotify_enabled = true then
                      { ctrl := { f.ctrl with last_scrub_time := now }, tracker := ts1,
                        commands := [Command.seekTo new_position], crashed := false }
                    else
                      -- self.spotify dereferenced (fetch and seek) without the attribute set
                      { ctrl := f.ctrl, tracker := ts1, commands := [], crashed := true }
                | none =>
                    { ctrl := f.ctrl, tracker := ts1, commands := [],
                      crashed := !cs2.spotify_enabled && f.attempted }
              else
                { ctrl := cs2, tracker := ts1, commands := [], crashed := false }
          | _, _ => { ctrl := cs2, tracker := ts1, commands := [], crashed := false }
    | none =>
        -- Scrub exit bookkeeping (lines 270-276)
        let cs3 := { cs2 with
          scrub_end_time := if cs2.scrubbing_active = true then now else cs2.scrub_end_time
          scrubbing_active := false
          scrub_start_x := none
          scrub_start_progress := none }
        if all_hands_data.length = 2 then
          -- Two hands, not scrub-eligible (lines 278-287)
          let r := handle_gestures cs3 none 0 now
          { ctrl := r.1, tracker := ts1, commands := r.2, crashed := false }
        else
          -- Single-hand gesture path (lines 288-325)
          let in_post_scrub_cooldown := now - cs3.scrub_end_time < post_scrub_cooldown
          let in_any_cooldown := in_post_scrub_cooldown ∨ in_hand_appearance_cooldown
          let hand_data := all_hands_data.headD (mkHandData [])
          let ts2 := { ts1 with
            position_history := appendHistory ts1.position_history hand_data.landmarks }
          let hand_in_swipe_zone := 20 * hand_data.wrist_y < 17 * frame_height
          let sw := detect_swipe ts2.position_history
          let can_trigger := now - ts2.last_gesture_time > tracker_cooldown_seconds
          let swipeTaken :=
            sw.1 ≠ none ∧ can_trigger ∧ hand_in_swipe_zone ∧ ¬ in_any_cooldown
          let ts3 := { ts2 with
            position_history := sw.2
            last_gesture_time := if swipeTaken then now else ts2.last_gesture_time }
          let gesture : Option Gesture :=
            if hand_data.is_pinching = true ∧ ¬ in_any_cooldown then some Gesture.pinch
            else if swipeTaken then sw.1
            else none
          let r :=
            if ¬ in_any_cooldown then handle_gestures cs3 gesture hand_data.finger_count now
            else handle_gestures cs3 none 0 now
          { ctrl := r.1, tracker := ts3, commands := r.2, crashed := false }

/-- Net horizontal wrist displacement over a history (newest x minus oldest x),
as computed inside detect_swipe. -/
def swipeDx (hist : List Landmarks) : Int :=
  ((hist.map wristOf).getLastD (0, 0)).1 - ((hist.map wristOf).headD (0, 0)).1

/-- Absolute vertical wrist displacement over a history, as computed inside
detect_swipe. -/
def swipeDy (hist : List Landmarks) : Nat :=
  (((hist.map wristOf).getLastD (0, 0)).2 - ((hist.map wristOf).headD (0, 0)).2).natAbs

/-- A 21-landmark open hand at wrist x: all five fingers extended, thumb tip
far from index tip (not pinching), wrist at (x, 200). -/
def handOpen (x : Int) : Landmarks :=
  [(x, 200), (x, 200), (x, 200), (x, 200), (x + 50, 200),
   (x, 200), (x, 200), (x, 180), (x, 150),
   (x, 200), (x, 200), (x, 180), (x, 150),
   (x, 200), (x, 200), (x, 180), (x, 150),
   (x, 200), (x, 200), (x, 180), (x, 150)]

/-- A 21-landmark pinching hand at wrist x: thumb tip and index tip 10px
apart, no finger extended, wrist at (x, 300). -/
def handPinch (x : Int) : Landmarks :=
  [(x, 300), (x, 300), (x, 300), (x + 5, 300), (x, 300),
   (x, 300), (x, 300), (x, 300), (x + 10, 300),
   (x, 300), (x, 300), (x, 300), (x, 300),
   (x, 300), (x, 300), (x, 300), (x, 300),
   (x, 300), (x, 300), (x, 300), (x, 300)]

def demoTrack : TrackData := { duration_ms := 60000, progress_ms := 10000 }

/-- Raw finger counts 2,2,2,2 then 3,3,3 at 0.4s spacing: the stable readings
are 2,2,2 then 3,3 (each raw value held past the 0.3s stability threshold). -/
def volTrace : List (ℤ × Nat) :=
  [(10000, 2), (10400, 2), (10800, 2), (11200, 2), (11600, 3), (12000, 3), (12400, 3)]

/-- Raw finger counts 1,1,1,2,2,1,1 sampled at 1.6s spacing. -/
def ppTrace : List (ℤ × Nat) :=
  [(10000, 1), (11600, 1), (13200, 1), (14800, 2), (16400, 2), (18000, 1), (19600, 1)]

/-- Ten-entry wrist history rising monotonically from x = 100 to x = 260. -/
def rightHist : List Landmarks :=
  [[(100, 200)], [(120, 200)], [(140, 200)], [(160, 200)], [(180, 200)],
   [(200, 200)], [(220, 200)], [(240, 200)], [(250, 200)], [(260, 200)]]

/-- The symmetric decreasing history from x = 260 down to x = 100. -/
def leftHist : List Landmarks :=
  [[(260, 200)], [(250, 200)], [(240, 200)], [(220, 200)], [(200, 200)],
   [(180, 200)], [(160, 200)], [(140, 200)], [(120, 200)], [(100, 200)]]

/-- Same horizontal travel but with vertical displacement 100 >= 80. -/
def tallHist : List Landmarks :=
  [[(100, 200)], [(120, 200)], [(140, 200)], [(160, 200)], [(180, 200)],
   [(200, 200)], [(220, 200)], [(240, 200)], [(250, 200)], [(260, 300)]]

/-- Controller mid-scrub with origin x = 300, origin progress = 10000 ms and a
fresh track-info cache fetched at t = 10. -/
def scrubState : ControllerState :=
  { initControllerState true with
      scrubbing_active := true
      scrub_start_x := some 300
      scrub_start_progress := some 10000
      cached_track_info := some demoTrack
      last_track_fetch_time := 10000 }

/-- Controller with finger-count candidate 1 held since t = 10. -/
def oneHeldState : ControllerState :=
  { initControllerState true with stable_finger_count := some 1, finger_count_start_time := 10000 }

/-- Controller with candidate 2 held since t = 10. -/
def twoHeldState : ControllerState :=
  { initControllerState true with stable_finger_count := some 2, finger_count_start_time := 10000 }

/-- Disarmed controller with candidate 5 held since t = 10. -/
def disarmedState : ControllerState :=
  { initControllerState true with
      stable_finger_count := some 5
      finger_count_start_time := 10000
      play_pause_armed := false
      volume_gesture_armed := false
      last_volume_gesture := some VolDir.up }

/-- Disarmed controller with candidate 0 held since t = 9 and all cooldowns
expired by t = 10. -/
def zeroHeldState : ControllerState :=
  { initControllerState true with
      stable_finger_count := some 0
      finger_count_start_time := 9000
      play_pause_armed := false
      volume_gesture_armed := false
      last_volume_gesture := some VolDir.up
      last_play_pause_time := 8000
      last_volume_time := 8000 }

/-- Controller that left scrub mode at t = 9 (still armed, still scrub-free). -/
def postScrubState : ControllerState :=
  { initControllerState true with scrub_end_time := 9000 }

/-- Controller currently scrubbing, used to exercise scrub-exit bookkeeping. -/
def activeScrubState : ControllerState :=
  { initControllerState true with scrubbing_active := true }

/-- Zero-hands frame at t = 10, then a scrub-eligible two-hand frame at
t = 10.1, then the control hand 3px to the right at t = 10.3. -/
def c3f1 : FrameResult :=
  frameStep (initControllerState true) initTrackerState [] 480 10000 (some demoTrack)

def c3f2 : FrameResult :=
  frameStep c3f1.ctrl c3f1.tracker [handOpen 100, handPinch 300] 480 10100 (some demoTrack)

def c3f3 : FrameResult :=
  frameStep c3f2.ctrl c3f2.tracker [handOpen 100, handPinch 303] 480 10300 (some demoTrack)

/-- Scrub-eligible frame at t = 10, all hands gone at t = 10.05, then a single
hand sweeping right from t = 10.1 to t = 10.8 (0.1s steps, 20px steps). -/
def c4g1 : FrameResult :=
  frameStep (initControllerState true) initTrackerState [handOpen 100, handPinch 300] 480
    10000 (some demoTrack)

def c4g2 : FrameResult :=
  frameStep c4g1.ctrl c4g1.tracker [] 480 10050 (some demoTrack)

def c4g3 : FrameResult :=
  frameStep c4g2.ctrl c4g2.tracker [handOpen 100] 480 10100 (some demoTrack)

def c4g4 : FrameResult :=
  frameStep c4g3.ctrl c4g3.tracker [handOpen 120] 480 10200 (some demoTrack)

def c4g5 : FrameResult :=
  frameStep c4g4.ctrl c4g4.tracker [handOpen 140] 480 10300 (some demoTrack)

def c4g6 : FrameResult :=
  frameStep c4g5.ctrl c4g5.tracker [handOpen 160] 480 10400 (some demoTrack)

def c4g7 : FrameResult :=
  frameStep c4g6.ctrl c4g6.tracker [handOpen 180] 480 10500 (some demoTrack)

def c4g8 : FrameResult :=
  frameStep c4g7.ctrl c4g7.tracker [handOpen 200] 480 10600 (some demoTrack)

def c4g9 : FrameResult :=
  frameStep c4g8.ctrl c4g8.tracker [handOpen 220] 480 10700 (some demoTrack)

def c4g10 : FrameResult :=
  frameStep c4g9.ctrl c4g9.tracker [handOpen 240] 480 10800 (some demoTrack)

theorem get_stable_shape (s : ControllerState) (fc : Nat) (now : ℤ) :
    ∃ cand t, (get_stable_finger_count s fc now).2 =
      { s with stable_finger_count := cand, finger_count_start_time := t } := by
  unfold get_stable_finger_count
  split_ifs <;>
    first
      | exact ⟨some fc, now, rfl⟩
      | exact ⟨s.stable_finger_count, s.finger_count_start_time, rfl⟩

theorem get_stable_fst (s : ControllerState) (fc : Nat) (now : ℤ) :
    (get_stable_finger_count s fc now).1 = none ∨
      (get_stable_finger_count s fc now).1 = some fc := by
  unfold get_stable_finger_count
  split_ifs <;> simp

theorem swipePhase_shape (s : ControllerState) (g : Option Gesture) (now : ℤ) :
    swipePhase s g now = (s, []) ∨
      ∃ d cmd, swipePhase s g now =
        ({ s with last_swipe_time := now, last_swipe_direction := some d }, [cmd]) := by
  cases g with
  | none => exact Or.inl rfl
  | some gg =>
      cases gg with
      | pinch => exact Or.inl rfl
      | swipe_left =>
          simp only [swipePhase]
          split_ifs <;>
            first
              | exact Or.inl rfl
              | exact Or.inr ⟨SwipeDir.left, Command.previousTrack, rfl⟩
      | swipe_right =>
          simp only [swipePhase]
          split_ifs <;>
            first
              | exact Or.inl rfl
              | exact Or.inr ⟨SwipeDir.right, Command.nextTrack, rfl⟩

theorem ppPhase_shape (s : ControllerState) (st : Option Nat) (now : ℤ) :
    ∃ a t, (ppPhase s st now).1 = { s with play_pause_armed := a, last_play_pause_time := t } := by
  unfold ppPhase
  dsimp only
  split_ifs <;>
    first
      | exact ⟨false, now, rfl⟩
      | exact ⟨true, s.last_play_pause_time, rfl⟩
      | exact ⟨s.play_pause_armed, s.last_play_pause_time, rfl⟩

theorem ppPhase_cmds (s : ControllerState) (st : Option Nat) (now : ℤ) :
    (ppPhase s st now).2 = [] ∨
      ((ppPhase s st now).2 = [Command.togglePlayPause] ∧ st = some 1) := by
  unfold ppPhase
  dsimp only
  split_ifs with h1 <;>
    first
      | exact Or.inl rfl
      | exact Or.inr ⟨rfl, h1⟩

theorem ppPhase_blocked (s : ControllerState) (st : Option Nat) (now : ℤ)
    (h : now - s.last_swipe_time < swipe_to_other_action_cooldown) :
    (ppPhase s st now).2 = [] := by
  unfold ppPhase
  dsimp only
  split_ifs with h1 h2 <;>
    first
      | rfl
      | exact absurd h h2.2.2

theorem volPhase_cmds (s : ControllerState) (st : Option Nat) (now : ℤ) :
    (volPhase s st now).2 = [] ∨
      ((volPhase s st now).2 = [Command.volumeDelta 10] ∧ st = some 2) ∨
      ((volPhase s st now).2 = [Command.volumeDelta (-10)] ∧ st = some 3) := by
  cases st with
  | none => exact Or.inl rfl
  | some c =>
      simp only [volPhase]
      split_ifs <;> simp_all

theorem volPhase_blocked (s : ControllerState) (st : Option Nat) (now : ℤ)
    (h : now - s.last_swipe_time < swipe_to_other_action_cooldown) :
    (volPhase s st now).2 = [] := by
  cases st with
  | none => rfl
  | some c =>
      simp only [volPhase]
      split_ifs <;> simp_all [swipe_to_other_action_cooldown]

theorem volPhase_shape (s : ControllerState) (st : Option Nat) (now : ℤ) :
    ∃ lg lt a, (volPhase s st now).1 =
      { s with last_volume_gesture := lg, last_volume_time := lt, volume_gesture_armed := a } := by
  cases st with
  | none =>
      exact ⟨s.last_volume_gesture, s.last_volume_time, s.volume_gesture_armed, rfl⟩
  | some c =>
      simp only [volPhase]
      split_ifs <;>
        first
          | exact ⟨none, s.last_volume_time, true, rfl⟩
          | exact ⟨some VolDir.up, now, false, rfl⟩
          | exact ⟨some VolDir.down, now, false, rfl⟩
          | exact ⟨s.last_volume_gesture, s.last_volume_time, s.volume_gesture_armed, rfl⟩

theorem handle_gestures_disabled (s : ControllerState) (g : Option Gesture)
    (fc : Nat) (now : ℤ) (h : s.spotify_enabled = false) :
    handle_gestures s g fc now = (s, []) := by
  unfold handle_gestures
  rw [if_pos h]

theorem handle_gestures_enabled (s : ControllerState) (g : Option Gesture)
    (fc : Nat) (now : ℤ) (h : s.spotify_enabled = true) :
    handle_gestures s g fc now =
      (let sp := get_stable_finger_count s fc now
       let sw := swipePhase sp.2 g now
       let pp := ppPhase sw.1 sp.1 now
       let vol := volPhase pp.1 sp.1 now
       (vol.1, sw.2 ++ pp.2 ++ vol.2)) := by
  unfold handle_gestures
  rw [if_neg (by rw [h]; decide)]

theorem swipePhase_cases (s : ControllerState) (g : Option Gesture) (now : ℤ) :
    swipePhase s g now = (s, []) ∨
      ((∃ cmd, (swipePhase s g now).2 = [cmd]) ∧
        (swipePhase s g now).1.last_swipe_time = now) := by
  cases g with
  | none => exact Or.inl rfl
  | some gg =>
      cases gg with
      | pinch => exact Or.inl rfl
      | swipe_left =>
          simp only [swipePhase]
          split_ifs <;>
            first
              | exact Or.inl rfl
              | exact Or.inr ⟨⟨Command.previousTrack, rfl⟩, rfl⟩
      | swipe_right =>
          simp only [swipePhase]
          split_ifs <;>
            first
              | exact Or.inl rfl
              | exact Or.inr ⟨⟨Command.nextTrack, rfl⟩, rfl⟩

theorem swipePhase_keep (s : ControllerState) (g : Option Gesture) (now : ℤ) :
    (swipePhase s g now).1.scrub_end_time = s.scrub_end_time := by
  rcases swipePhase_shape s g now with h | ⟨d, cmd, h⟩ <;> rw [h]

theorem ppPhase_keep (s : ControllerState) (st : Option Nat) (now : ℤ) :
    (ppPhase s st now).1.last_swipe_time = s.last_swipe_time ∧
      (ppPhase s st now).1.last_volume_time = s.last_volume_time ∧
      (ppPhase s st now).1.volume_gesture_armed = s.volume_gesture_armed ∧
      (ppPhase s st now).1.last_volume_gesture = s.last_volume_gesture ∧
      (ppPhase s st now).1.scrub_end_time = s.scrub_end_time := by
  obtain ⟨a, t, h⟩ := ppPhase_shape s st now
  rw [h]
  exact ⟨rfl, rfl, rfl, rfl, rfl⟩

theorem volPhase_keep (s : ControllerState) (st : Option Nat) (now : ℤ) :
    (volPhase s st now).1.play_pause_armed = s.play_pause_armed ∧
      (volPhase s st now).1.scrub_end_time = s.scrub_end_time := by
  obtain ⟨lg, lt, a, h⟩ := volPhase_shape s st now
  rw [h]
  exact ⟨rfl, rfl⟩

theorem ppPhase_fire_iff (s : ControllerState) (st : Option Nat) (now : ℤ) :
    Command.togglePlayPause ∈ (ppPhase s st now).2 ↔
      st = some 1 ∧ s.play_pause_armed = true ∧
        play_pause_cooldown ≤ now - s.last_play_pause_time ∧
        swipe_to_other_action_cooldown ≤ now - s.last_swipe_time := by
  unfold ppPhase
  dsimp only
  split_ifs with h1 h2 <;> simp_all [not_lt]

theorem ppPhase_rearm_iff (s : ControllerState) (st : Option Nat) (now : ℤ)
    (ha : s.play_pause_armed = false) :
    (ppPhase s st now).1.play_pause_armed = true ↔
      (∃ c, st = some c ∧ c ≠ 1) ∧ play_pause_cooldown ≤ now - s.last_play_pause_time := by
  unfold ppPhase
  dsimp only
  split_ifs with h1 h2 h3 h4 <;> simp_all [not_lt]
  cases st with
  | none => exact absurd rfl h3
  | some c => exact ⟨c, rfl, fun hc => h1 (by rw [hc])⟩

theorem ppPhase_zero_rearms (s : ControllerState) (now : ℤ)
    (h1 : ¬(now - s.last_play_pause_time < play_pause_cooldown)) :
    (ppPhase s (some 0) now).1.play_pause_armed = true := by
  simp [ppPhase, h1]

theorem volPhase_up_iff (s : ControllerState) (st : Option Nat) (now : ℤ) :
    Command.volumeDelta 10 ∈ (volPhase s st now).2 ↔
      st = some 2 ∧ s.volume_gesture_armed = true ∧
        s.last_volume_gesture ≠ some VolDir.up ∧
        volume_cooldown ≤ now - s.last_volume_time ∧
        swipe_to_other_action_cooldown ≤ now - s.last_swipe_time := by
  cases st with
  | none => simp [volPhase]
  | some c =>
      simp only [volPhase]
      split_ifs with h1 h2 h3 h4 h5 <;>
        simp_all [not_lt, not_or, Classical.not_and_iff_or_not_not]
      intro _ _ _ hle
      rcases h3 with hcd | hsw
      · exact absurd hcd (not_lt.mpr hle)
      · exact hsw

theorem volPhase_down_iff (s : ControllerState) (st : Option Nat) (now : ℤ) :
    Command.volumeDelta (-10) ∈ (volPhase s st now).2 ↔
      st = some 3 ∧ s.volume_gesture_armed = true ∧
        s.last_volume_gesture ≠ some VolDir.down ∧
        volume_cooldown ≤ now - s.last_volume_time ∧
        swipe_to_other_action_cooldown ≤ now - s.last_swipe_time := by
  cases st with
  | none => simp [volPhase]
  | some c =>
      simp only [volPhase]
      split_ifs with h1 h2 h3 h4 h5 <;>
        simp_all [not_lt, not_or, Classical.not_and_iff_or_not_not]
      intro _ _ _ hle
      rcases h3 with hcd | hsw
      · exact absurd hcd (not_lt.mpr hle)
      · exact hsw

theorem volPhase_rearm_iff (s : ControllerState) (st : Option Nat) (now : ℤ)
    (ha : s.volume_gesture_armed = false) :
    (volPhase s st now).1.volume_gesture_armed = true ↔
      (∃ c, st = some c ∧ c ≠ 2 ∧ c ≠ 3) ∧ volume_cooldown ≤ now - s.last_volume_time := by
  cases st with
  | none => simp [volPhase, ha]
  | some c =>
      simp only [volPhase]
      split_ifs with h1 h2 h3 h4 h5 <;>
        simp_all [not_lt, not_or, Classical.not_and_iff_or_not_not]

theorem volPhase_zero_rearms (s : ControllerState) (now : ℤ)
    (h1 : ¬(now - s.last_volume_time < volume_cooldown)) :
    (volPhase s (some 0) now).1.volume_gesture_armed = true ∧
      (volPhase s (some 0) now).1.last_volume_gesture = none := by
  simp [volPhase, h1]

theorem get_stable_hit (s : ControllerState) (fc : Nat) (now : ℤ)
    (hc : s.stable_finger_count = some fc)
    (ht : now - s.finger_count_start_time ≥ stability_threshold) :
    get_stable_finger_count s fc now = (some fc, s) := by
  unfold get_stable_finger_count
  rw [if_neg (by simp [hc]), if_pos ht]

theorem handle_gestures_len (s : ControllerState) (g : Option Gesture) (fc : Nat) (now : ℤ) :
    (handle_gestures s g fc now).2.length ≤ 1 := by
  by_cases he : s.spotify_enabled = false
  · rw [handle_gestures_disabled s g fc now he]
    simp
  · rw [handle_gestures_enabled s g fc now (by revert he; cases s.spotify_enabled <;> simp)]
    dsimp only
    rcases swipePhase_cases (get_stable_finger_count s fc now).2 g now with
      hsw | ⟨⟨cmd, hsw2⟩, hswt⟩
    · rw [hsw]
      dsimp only
      rcases ppPhase_cmds (get_stable_finger_count s fc now).2
          (get_stable_finger_count s fc now).1 now with hpp | ⟨hpp, hst⟩
      · rw [hpp]
        rcases volPhase_cmds
            (ppPhase (get_stable_finger_count s fc now).2
              (get_stable_finger_count s fc now).1 now).1
            (get_stable_finger_count s fc now).1 now with hv | hv | hv <;>
          first
            | (rw [hv]; simp)
            | (rw [hv.1]; simp)
      · rw [hpp]
        rcases volPhase_cmds
            (ppPhase (get_stable_finger_count s fc now).2
              (get_stable_finger_count s fc now).1 now).1
            (get_stable_finger_count s fc now).1 now with hv | hv | hv
        · rw [hv]
          simp
        · rw [hst] at hv
          simp at hv
        · rw [hst] at hv
          simp at hv
    · have hb1 : now - ((swipePhase (get_stable_finger_count s fc now).2 g now).1).last_swipe_time
          < swipe_to_other_action_cooldown := by
        rw [hswt]
        norm_num [swipe_to_other_action_cooldown]
      have hpp := ppPhase_blocked (swipePhase (get_stable_finger_count s fc now).2 g now).1
        (get_stable_finger_count s fc now).1 now hb1
      have hb2 : now - ((ppPhase (swipePhase (get_stable_finger_count s fc now).2 g now).1
            (get_stable_finger_count s fc now).1 now).1).last_swipe_time
          < swipe_to_other_action_cooldown := by
        rw [(ppPhase_keep (swipePhase (get_stable_finger_count s fc now).2 g now).1
          (get_stable_finger_count s fc now).1 now).1, hswt]
        norm_num [swipe_to_other_action_cooldown]
      have hv := volPhase_blocked
        (ppPhase (swipePhase (get_stable_finger_count s fc now).2 g now).1
          (get_stable_finger_count s fc now).1 now).1
        (get_stable_finger_count s fc now).1 now hb2
      rw [hpp, hsw2, hv]
      simp

theorem handle_gestures_none_zero (s : ControllerState) (now : ℤ) :
    (handle_gestures s none 0 now).2 = [] := by
  by_cases he : s.spotify_enabled = false
  · rw [handle_gestures_disabled s none 0 now he]
  · rw [handle_gestures_enabled s none 0 now (by revert he; cases s.spotify_enabled <;> simp)]
    dsimp only
    have hsw : swipePhase (get_stable_finger_count s 0 now).2 none now =
        ((get_stable_finger_count s 0 now).2, []) := rfl
    rw [hsw]
    dsimp only
    have hz := get_stable_fst s 0 now
    rcases ppPhase_cmds (get_stable_finger_count s 0 now).2
        (get_stable_finger_count s 0 now).1 now with hpp | ⟨hpp, hst⟩
    · rw [hpp]
      rcases volPhase_cmds
          (ppPhase (get_stable_finger_count s 0 now).2
            (get_stable_finger_count s 0 now).1 now).1
          (get_stable_finger_count s 0 now).1 now with hv | ⟨hv, h2⟩ | ⟨hv, h3⟩
      · rw [hv]
        simp
      · exfalso
        rcases hz with hz | hz <;> rw [hz] at h2 <;> simp at h2
      · exfalso
        rcases hz with hz | hz <;> rw [hz] at h3 <;> simp at h3
    · exfalso
      rcases hz with hz | hz <;> rw [hz] at hst <;> simp at hst

theorem handle_gestures_scrub_end (s : ControllerState) (g : Option Gesture)
    (fc : Nat) (now : ℤ) :
    (handle_gestures s g fc now).1.scrub_end_time = s.scrub_end_time := by
  by_cases he : s.spotify_enabled = false
  · rw [handle_gestures_disabled s g fc now he]
  · rw [handle_gestures_enabled s g fc now (by revert he; cases s.spotify_enabled <;> simp)]
    dsimp only
    rw [(volPhase_keep _ _ _).2, (ppPhase_keep _ _ _).2.2.2.2, swipePhase_keep]
    obtain ⟨cand, t, hgs⟩ := get_stable_shape s fc now
    rw [hgs]

theorem displayState_shape (cs : ControllerState) (now : ℤ) (backend : Option TrackData) :
    ∃ c t, displayState cs now backend =
      { cs with cached_track_info := c, last_track_fetch_time := t } := by
  unfold displayState get_track_info_cached
  split_ifs <;>
    first
      | exact ⟨backend, now, rfl⟩
      | exact ⟨cs.cached_track_info, cs.last_track_fetch_time, rfl⟩

theorem frameStep_len (cs : ControllerState) (ts : TrackerState) (hands : List Landmarks)
    (h : Int) (now : ℤ) (backend : Option TrackData) :
    (frameStep cs ts hands h now backend).commands.length ≤ 1 := by
  unfold frameStep
  dsimp only
  repeat' split
  all_goals
    first
      | exact handle_gestures_len _ _ _ _
      | (dsimp only; exact handle_gestures_len _ _ _ _)
      | simp

theorem frameStep_no_hands (cs : ControllerState) (ts : TrackerState) (h : Int) (now : ℤ)
    (backend : Option TrackData) :
    frameStep cs ts [] h now backend =
      { ctrl := (handle_gestures
            { displayState cs now backend with
                hand_was_visible := false
                scrubbing_active := false
                scrub_start_x := none
                scrub_start_progress := none } none 0 now).1
        tracker := ts
        commands := (handle_gestures
            { displayState cs now backend with
                hand_was_visible := false
                scrubbing_active := false
                scrub_start_x := none
                scrub_start_progress := none } none 0 now).2
        crashed := false } := by
  unfold frameStep
  dsimp only
  rw [if_pos rfl]

set_option maxHeartbeats 1000000 in
theorem frameStep_single_blocked (cs : ControllerState) (ts : TrackerState) (lm : Landmarks)
    (h : Int) (now : ℤ) (backend : Option TrackData)
    (hc : now - cs.scrub_end_time < post_scrub_cooldown ∨ cs.hand_was_visible = false ∨
      now - cs.hand_first_seen_time < hand_appearance_cooldown) :
    (frameStep cs ts [lm] h now backend).commands = [] := by
  unfold frameStep
  dsimp only
  rw [if_neg (by simp)]
  obtain ⟨cc, tt, hd⟩ := displayState_shape cs now backend
  rw [hd]
  dsimp only
  have hsp : scrubPair (List.map mkHandData [lm]) = none := rfl
  rw [hsp]
  dsimp only
  rw [if_neg (by simp)]
  dsimp only
  split_ifs <;>
    first
      | exact handle_gestures_none_zero _ _
      | (exfalso
         rcases hc with hc | hc | hc <;>
           simp_all [post_scrub_cooldown, hand_appearance_cooldown] <;>
           omega)

theorem frameStep_twohands_blocked (cs : ControllerState) (ts : TrackerState)
    (lm1 lm2 : Landmarks) (h : Int) (now : ℤ) (backend : Option TrackData)
    (hsp : scrubPair [mkHandData lm1, mkHandData lm2] = none) :
    (frameStep cs ts [lm1, lm2] h now backend).commands = [] := by
  unfold frameStep
  dsimp only
  rw [if_neg (by simp)]
  rw [show List.map mkHandData [lm1, lm2] = [mkHandData lm1, mkHandData lm2] from rfl, hsp]
  dsimp only
  have hlen : ([mkHandData lm1, mkHandData lm2] : List HandData).length = 2 := rfl
  rw [if_pos hlen]
  exact handle_gestures_none_zero _ _

theorem frameStep_scrub_exit (cs : ControllerState) (ts : TrackerState)
    (hands : List Landmarks) (h : Int) (now : ℤ) (backend : Option TrackData)
    (hne : hands ≠ []) (hsp : scrubPair (hands.map mkHandData) = none)
    (hact : cs.scrubbing_active = true) :
    (frameStep cs ts hands h now backend).ctrl.scrub_end_time = now := by
  unfold frameStep
  dsimp only
  rw [if_neg hne]
  obtain ⟨cc, tt, hd⟩ := displayState_shape cs now backend
  rw [hd]
  dsimp only
  rw [hsp]
  dsimp only
  split_ifs <;>
    first
      | (try dsimp only
         rw [handle_gestures_scrub_end]
         all_goals first
           | rfl
           | (simp_all; done))
      | (simp_all; done)

theorem frameStep_transition_history (cs : ControllerState) (ts : TrackerState)
    (hands : List Landmarks) (h : Int) (now : ℤ) (backend : Option TrackData)
    (hne : hands ≠ []) (hvis : cs.hand_was_visible = false) :
    (frameStep cs ts hands h now backend).tracker.position_history.length ≤ 1 := by
  unfold frameStep
  dsimp only
  rw [if_neg hne]
  obtain ⟨cc, tt, hd⟩ := displayState_shape cs now backend
  rw [hd]
  dsimp only
  rw [if_pos hvis, if_pos hvis]
  repeat' split
  all_goals simp [appendHistory, detect_swipe]

theorem handle_gestures_zero_rearm (s : ControllerState) (now : ℤ)
    (he : s.spotify_enabled = true)
    (hc : s.stable_finger_count = some 0)
    (ht : stability_threshold ≤ now - s.finger_count_start_time)
    (hpp : play_pause_cooldown ≤ now - s.last_play_pause_time)
    (hv : volume_cooldown ≤ now - s.last_volume_time) :
    (handle_gestures s none 0 now).1.play_pause_armed = true ∧
      (handle_gestures s none 0 now).1.volume_gesture_armed = true ∧
      (handle_gestures s none 0 now).1.last_volume_gesture = none := by
  rw [handle_gestures_enabled s none 0 now he]
  dsimp only
  rw [get_stable_hit s 0 now hc ht]
  dsimp only
  rw [show swipePhase s none now = (s, []) from rfl]
  dsimp only
  have hk := ppPhase_keep s (some 0) now
  have hvz := volPhase_zero_rearms (ppPhase s (some 0) now).1 now
    (by rw [hk.2.1]; exact not_lt.mpr hv)
  exact ⟨by rw [(volPhase_keep _ _ _).1]; exact ppPhase_zero_rearms s now (not_lt.mpr hpp),
    hvz.1, hvz.2⟩

/-- C1: for every processed frame, at most one playback command is issued: the
scrub path and the single-hand gesture path are mutually exclusive within a
frame, and within one handle_gestures call a swipe, a play/pause fire and a
volume fire are pairwise exclusive, so both the arbitration call and the whole
frame step emit at most one command. -/
theorem spec_c1 :
    (∀ (s : ControllerState) (g : Option Gesture) (fc : Nat) (now : ℤ),
      (handle_gestures s g fc now).2.length ≤ 1) ∧
    (∀ (cs : ControllerState) (ts : TrackerState) (hands : List Landmarks)
      (h : Int) (now : ℤ) (backend : Option TrackData),
      (frameStep cs ts hands h now backend).commands.length ≤ 1) :=
  ⟨handle_gestures_len, frameStep_len⟩

/-- C7: the swipe detector returns no classification when the history holds
fewer than 8 entries; otherwise, with dx the newest-minus-oldest wrist x and
dy the absolute wrist y displacement, it classifies a swipe iff abs dx > 120
and dy < 80 and abs dx > 1.5 dy (as integers: 2 abs dx > 3 dy), right when
dx > 0 and left otherwise, clearing the history exactly on a positive
classification. -/
theorem spec_c7 (hist : List Landmarks) :
    (hist.length < 8 → detect_swipe hist = (none, hist)) ∧
    (8 ≤ hist.length →
      detect_swipe hist =
        if (swipeDx hist).natAbs > 120 ∧ swipeDy hist < 80 ∧
            2 * (swipeDx hist).natAbs > 3 * swipeDy hist then
          (if swipeDx hist > 0 then (some Gesture.swipe_right, ([] : List Landmarks))
            else (some Gesture.swipe_left, []))
        else (none, hist)) := by
  constructor
  · intro h
    unfold detect_swipe
    rw [if_pos h]
  · intro h
    unfold detect_swipe
    rw [if_neg (by omega)]
    dsimp only
    unfold swipeDx swipeDy
    split_ifs <;> first | rfl | tauto

/-- C7 witness: the spec test vectors: a ten-entry monotone rightward history
classifies right, the decreasing one classifies left, the same horizontal
travel with dy = 100 classifies nothing, and a 7-entry history classifies
nothing. -/
theorem spec_c7_witness :
    (detect_swipe rightHist =
      if (swipeDx rightHist).natAbs > 120 ∧ swipeDy rightHist < 80 ∧
          2 * (swipeDx rightHist).natAbs > 3 * swipeDy rightHist then
        (if swipeDx rightHist > 0 then (some Gesture.swipe_right, ([] : List Landmarks))
          else (some Gesture.swipe_left, []))
      else (none, rightHist)) ∧
    detect_swipe rightHist = (some Gesture.swipe_right, []) ∧
    detect_swipe leftHist = (some Gesture.swipe_left, []) ∧
    detect_swipe tallHist = (none, tallHist) ∧
    detect_swipe (rightHist.take 7) = (none, rightHist.take 7) :=
  ⟨(spec_c7 rightHist).2 (by decide), by decide, by decide, by decide,
    (spec_c7 (rightHist.take 7)).1 (by decide)⟩

/-- C9: the stability filter reports a raw finger count as stable exactly when
the same count has been the unchanged candidate for at least 0.3s at the time
of evaluation; a raw count differing from the candidate resets the candidate
and its start time and reports not-yet-stable. -/
theorem spec_c9 (s : ControllerState) (fc : Nat) (now : ℤ) :
    (some fc ≠ s.stable_finger_count →
      get_stable_finger_count s fc now =
        (none, { s with stable_finger_count := some fc, finger_count_start_time := now })) ∧
    (some fc = s.stable_finger_count →
      get_stable_finger_count s fc now =
        (if stability_threshold ≤ now - s.finger_count_start_time then some fc else none,
          s)) := by
  constructor
  · intro h
    unfold get_stable_finger_count
    rw [if_pos h]
  · intro h
    unfold get_stable_finger_count
    rw [if_neg (by simp [h])]
    split_ifs <;> rfl

/-- C9 witness: a fresh state reading raw count 2 resets the candidate and is
not yet stable; a state whose candidate 2 started at t = 10 is stable at
t = 10.4 (0.4s at or beyond the 0.3s threshold) and was not stable at
t = 10.2. -/
theorem spec_c9_witness :
    (get_stable_finger_count (initControllerState true) 2 10000 =
      (none, { initControllerState true with
                stable_finger_count := some 2
                finger_count_start_time := 10000 })) ∧
    (get_stable_finger_count twoHeldState 2 10400 =
      (if stability_threshold ≤ (10400 : ℤ) - twoHeldState.finger_count_start_time then some 2
        else none, twoHeldState)) ∧
    (get_stable_finger_count twoHeldState 2 10400).1 = some 2 ∧
    (get_stable_finger_count twoHeldState 2 10200).1 = none :=
  ⟨(spec_c9 (initControllerState true) 2 10000).1 (by decide),
    (spec_c9 twoHeldState 2 10400).2 (by decide), by decide, by decide⟩

/-- C8: with no swipe this frame, a toggle-play/pause command fires exactly
when the stable count is 1, the action is armed, at least 1.5s has elapsed
since the last play/pause, and no 1.0s swipe-suppression window is active;
when disarmed, the action re-arms exactly when a stable count other than 1 is
observed and the 1.5s cooldown has also elapsed; consequently the raw count
sequence 1,1,1,2,2,1,1 sampled at 1.6s intervals emits exactly two toggles. -/
theorem spec_c8 :
    (∀ (s : ControllerState) (fc : Nat) (now : ℤ), s.spotify_enabled = true →
      (Command.togglePlayPause ∈ (handle_gestures s none fc now).2 ↔
        (get_stable_finger_count s fc now).1 = some 1 ∧ s.play_pause_armed = true ∧
          play_pause_cooldown ≤ now - s.last_play_pause_time ∧
          swipe_to_other_action_cooldown ≤ now - s.last_swipe_time)) ∧
    (∀ (s : ControllerState) (fc : Nat) (now : ℤ), s.spotify_enabled = true →
      s.play_pause_armed = false →
      ((handle_gestures s none fc now).1.play_pause_armed = true ↔
        (∃ c, (get_stable_finger_count s fc now).1 = some c ∧ c ≠ 1) ∧
          play_pause_cooldown ≤ now - s.last_play_pause_time)) ∧
    (runGestures (initControllerState true) ppTrace).2.count Command.togglePlayPause = 2 := by
  refine ⟨?_, ?_, by decide⟩
  · intro s fc now he
    rw [handle_gestures_enabled s none fc now he]
    dsimp only
    rw [show swipePhase (get_stable_finger_count s fc now).2 none now =
        ((get_stable_finger_count s fc now).2, []) from rfl]
    dsimp only
    rw [List.nil_append, List.mem_append]
    have hnv : Command.togglePlayPause ∉
        (volPhase (ppPhase (get_stable_finger_count s fc now).2
          (get_stable_finger_count s fc now).1 now).1
          (get_stable_finger_count s fc now).1 now).2 := by
      rcases volPhase_cmds (ppPhase (get_stable_finger_count s fc now).2
          (get_stable_finger_count s fc now).1 now).1
          (get_stable_finger_count s fc now).1 now with hv | ⟨hv, _⟩ | ⟨hv, _⟩ <;>
        rw [hv] <;> simp
    rw [or_iff_left hnv, ppPhase_fire_iff]
    obtain ⟨cand, t1, hgs⟩ := get_stable_shape s fc now
    rw [hgs]
  · intro s fc now he ha
    rw [handle_gestures_enabled s none fc now he]
    dsimp only
    rw [show swipePhase (get_stable_finger_count s fc now).2 none now =
        ((get_stable_finger_count s fc now).2, []) from rfl]
    dsimp only
    rw [(volPhase_keep _ _ _).1]
    obtain ⟨cand, t1, hgs⟩ := get_stable_shape s fc now
    rw [ppPhase_rearm_iff _ _ _ (by rw [hgs]; exact ha), hgs]

/-- C8 witness: with candidate 1 held since t = 10000 ms, at t = 10400 ms a
fresh armed controller fires the toggle; a disarmed controller holding
candidate 5 re-arms at t = 10400 ms. -/
theorem spec_c8_witness :
    Command.togglePlayPause ∈ (handle_gestures oneHeldState none 1 10400).2 ∧
      (handle_gestures disarmedState none 5 10400).1.play_pause_armed = true :=
  ⟨(spec_c8.1 oneHeldState 1 10400 (by decide)).mpr (by decide),
    (spec_c8.2.1 disarmedState 5 10400 (by decide) (by decide)).mpr (by decide)⟩

/-- C2 counterexample: the stable-count scenario of the claim — raw counts
2,2,2,2 then 3,3,3 at 0.4s spacing, so the stable readings are 2,2,2 then 3,3,
with no swipe activity — emits VolumeDelta(+10) exactly once and never emits
VolumeDelta(−10), contradicting the claimed "+10 exactly once and then −10
exactly once": after +10 fires the armed flag is false, and a stable 3 with
the flag false is ignored (main.py line 129) rather than re-arming. -/
theorem spec_c2_counterexample :
    (runGestures (initControllerState true) volTrace).2 = [Command.volumeDelta 10] ∧
      Command.volumeDelta (-10) ∉ (runGestures (initControllerState true) volTrace).2 := by
  decide

/-- C2 (amended): with no swipe this frame, volume +10 fires exactly when the
stable count is 2, the volume action is armed, the last volume direction is
not already up, the 1.0s volume cooldown has elapsed and no swipe-suppression
window is active; −10 fires symmetrically for stable count 3 and direction
down; when disarmed, the action re-arms (and the direction memory clears)
exactly when the stable count stabilises at a value outside {2,3} with the
1.0s cooldown elapsed — requesting the opposite direction does not re-arm —
so the stable sequence 2,2,2,3,3 emits +10 exactly once and −10 never. -/
theorem spec_c2 :
    (∀ (s : ControllerState) (fc : Nat) (now : ℤ), s.spotify_enabled = true →
      (Command.volumeDelta 10 ∈ (handle_gestures s none fc now).2 ↔
        (get_stable_finger_count s fc now).1 = some 2 ∧ s.volume_gesture_armed = true ∧
          s.last_volume_gesture ≠ some VolDir.up ∧
          volume_cooldown ≤ now - s.last_volume_time ∧
          swipe_to_other_action_cooldown ≤ now - s.last_swipe_time)) ∧
    (∀ (s : ControllerState) (fc : Nat) (now : ℤ), s.spotify_enabled = true →
      (Command.volumeDelta (-10) ∈ (handle_gestures s none fc now).2 ↔
        (get_stable_finger_count s fc now).1 = some 3 ∧ s.volume_gesture_armed = true ∧
          s.last_volume_gesture ≠ some VolDir.down ∧
          volume_cooldown ≤ now - s.last_volume_time ∧
          swipe_to_other_action_cooldown ≤ now - s.last_swipe_time)) ∧
    (∀ (s : ControllerState) (fc : Nat) (now : ℤ), s.spotify_enabled = true →
      s.volume_gesture_armed = false →
      ((handle_gestures s none fc now).1.volume_gesture_armed = true ↔
        (∃ c, (get_stable_finger_count s fc now).1 = some c ∧ c ≠ 2 ∧ c ≠ 3) ∧
          volume_cooldown ≤ now - s.last_volume_time)) ∧
    ((runGestures (initControllerState true) volTrace).2.count (Command.volumeDelta 10) = 1 ∧
      (runGestures (initControllerState true) volTrace).2.count (Command.volumeDelta (-10)) = 0) := by
  refine ⟨?_, ?_, ?_, by decide⟩
  · intro s fc now he
    rw [handle_gestures_enabled s none fc now he]
    dsimp only
    rw [show swipePhase (get_stable_finger_count s fc now).2 none now =
        ((get_stable_finger_count s fc now).2, []) from rfl]
    dsimp only
    rw [List.nil_append, List.mem_append]
    have hnp : Command.volumeDelta 10 ∉
        (ppPhase (get_stable_finger_count s fc now).2
          (get_stable_finger_count s fc now).1 now).2 := by
      rcases ppPhase_cmds (get_stable_finger_count s fc now).2
          (get_stable_finger_count s fc now).1 now with hp | ⟨hp, _⟩ <;>
        rw [hp] <;> simp
    rw [or_iff_right hnp, volPhase_up_iff]
    have hk := ppPhase_keep (get_stable_finger_count s fc now).2
      (get_stable_finger_count s fc now).1 now
    rw [hk.1, hk.2.1, hk.2.2.1, hk.2.2.2.1]
    obtain ⟨cand, t1, hgs⟩ := get_stable_shape s fc now
    rw [hgs]
  · intro s fc now he
    rw [handle_gestures_enabled s none fc now he]
    dsimp only
    rw [show swipePhase (get_stable_finger_count s fc now).2 none now =
        ((get_stable_finger_count s fc now).2, []) from rfl]
    dsimp only
    rw [List.nil_append, List.mem_append]
    have hnp : Command.volumeDelta (-10) ∉
        (ppPhase (get_stable_finger_count s fc now).2
          (get_stable_finger_count s fc now).1 now).2 := by
      rcases ppPhase_cmds (get_stable_finger_count s fc now).2
          (get_stable_finger_count s fc now).1 now with hp | ⟨hp, _⟩ <;>
        rw [hp] <;> simp
    rw [or_iff_right hnp, volPhase_down_iff]
    have hk := ppPhase_keep (get_stable_finger_count s fc now).2
      (get_stable_finger_count s fc now).1 now
    rw [hk.1, hk.2.1, hk.2.2.1, hk.2.2.2.1]
    obtain ⟨cand, t1, hgs⟩ := get_stable_shape s fc now
    rw [hgs]
  · intro s fc now he ha
    rw [handle_gestures_enabled s none fc now he]
    dsimp only
    rw [show swipePhase (get_stable_finger_count s fc now).2 none now =
        ((get_stable_finger_count s fc now).2, []) from rfl]
    dsimp only
    have hk := ppPhase_keep (get_stable_finger_count s fc now).2
      (get_stable_finger_count s fc now).1 now
    obtain ⟨cand, t1, hgs⟩ := get_stable_shape s fc now
    rw [volPhase_rearm_iff _ _ _ (by rw [hk.2.2.1, hgs]; exact ha), hk.2.1, hgs]

/-- C2 witness: with candidate 2 held since t = 10000 ms, at t = 10400 ms a
fresh armed controller fires VolumeDelta(+10); a disarmed controller holding
candidate 5 re-arms the volume action at t = 10400 ms. -/
theorem spec_c2_witness :
    Command.volumeDelta 10 ∈ (handle_gestures twoHeldState none 2 10400).2 ∧
      (handle_gestures disarmedState none 5 10400).1.volume_gesture_armed = true :=
  ⟨(spec_c2.1 twoHeldState 2 10400 (by decide)).mpr (by decide),
    (spec_c2.2.2.1 disarmedState 5 10400 (by decide) (by decide)).mpr (by decide)⟩

set_option maxHeartbeats 2000000 in
/-- C10: with zero hands detected, with two non-scrub hands present, or with a
single hand while an appearance or post-scrub cooldown is active (the
transition frame that starts the appearance cooldown included), the
arbitration step still runs with a synthesized raw finger count of 0;
consequently once 0 has been the stable count for at least 0.3s and the
1.5s / 1.0s cooldowns have elapsed (and the backend is enabled), the
play/pause and volume gestures re-arm and the volume last-direction memory
clears, with no command emitted. -/
theorem spec_c10 :
    (∀ (cs : ControllerState) (ts : TrackerState) (h : Int) (now : ℤ)
        (backend : Option TrackData),
      cs.spotify_enabled = true → cs.stable_finger_count = some 0 →
      stability_threshold ≤ now - cs.finger_count_start_time →
      play_pause_cooldown ≤ now - cs.last_play_pause_time →
      volume_cooldown ≤ now - cs.last_volume_time →
      (frameStep cs ts [] h now backend).ctrl.play_pause_armed = true ∧
        (frameStep cs ts [] h now backend).ctrl.volume_gesture_armed = true ∧
        (frameStep cs ts [] h now backend).ctrl.last_volume_gesture = none ∧
        (frameStep cs ts [] h now backend).commands = []) ∧
    (∀ (cs : ControllerState) (ts : TrackerState) (lm1 lm2 : Landmarks) (h : Int)
        (now : ℤ) (backend : Option TrackData),
      scrubPair [mkHandData lm1, mkHandData lm2] = none →
      cs.spotify_enabled = true → cs.stable_finger_count = some 0 →
      stability_threshold ≤ now - cs.finger_count_start_time →
      play_pause_cooldown ≤ now - cs.last_play_pause_time →
      volume_cooldown ≤ now - cs.last_volume_time →
      (frameStep cs ts [lm1, lm2] h now backend).ctrl.play_pause_armed = true ∧
        (frameStep cs ts [lm1, lm2] h now backend).ctrl.volume_gesture_armed = true ∧
        (frameStep cs ts [lm1, lm2] h now backend).ctrl.last_volume_gesture = none ∧
        (frameStep cs ts [lm1, lm2] h now backend).commands = []) ∧
    (∀ (cs : ControllerState) (ts : TrackerState) (lm : Landmarks) (h : Int)
        (now : ℤ) (backend : Option TrackData),
      now - cs.scrub_end_time < post_scrub_cooldown ∨ cs.hand_was_visible = false ∨
        now - cs.hand_first_seen_time < hand_appearance_cooldown →
      cs.spotify_enabled = true → cs.stable_finger_count = some 0 →
      stability_threshold ≤ now - cs.finger_count_start_time →
      play_pause_cooldown ≤ now - cs.last_play_pause_time →
      volume_cooldown ≤ now - cs.last_volume_time →
      (frameStep cs ts [lm] h now backend).ctrl.play_pause_armed = true ∧
        (frameStep cs ts [lm] h now backend).ctrl.volume_gesture_armed = true ∧
        (frameStep cs ts [lm] h now backend).ctrl.last_volume_gesture = none ∧
        (frameStep cs ts [lm] h now backend).commands = []) := by
  refine ⟨?_, ?_, ?_⟩
  · intro cs ts h now backend he hc ht hpp hv
    rw [frameStep_no_hands]
    dsimp only
    obtain ⟨cc, tt, hd⟩ := displayState_shape cs now backend
    rw [hd]
    exact ⟨(handle_gestures_zero_rearm _ now (by exact he) (by exact hc) (by exact ht)
        (by exact hpp) (by exact hv)).1,
      (handle_gestures_zero_rearm _ now (by exact he) (by exact hc) (by exact ht)
        (by exact hpp) (by exact hv)).2.1,
      (handle_gestures_zero_rearm _ now (by exact he) (by exact hc) (by exact ht)
        (by exact hpp) (by exact hv)).2.2,
      handle_gestures_none_zero _ _⟩
  · intro cs ts lm1 lm2 h now backend hsp he hc ht hpp hv
    have hcmd := frameStep_twohands_blocked cs ts lm1 lm2 h now backend hsp
    unfold frameStep at hcmd ⊢
    dsimp only at hcmd ⊢
    rw [if_neg (by simp)] at hcmd ⊢
    rw [show List.map mkHandData [lm1, lm2] = [mkHandData lm1, mkHandData lm2] from rfl,
      hsp] at hcmd ⊢
    dsimp only at hcmd ⊢
    have hlen : ([mkHandData lm1, mkHandData lm2] : List HandData).length = 2 := rfl
    rw [if_pos hlen] at hcmd ⊢
    obtain ⟨cc, tt, hd⟩ := displayState_shape cs now backend
    rw [hd] at hcmd ⊢
    dsimp only at hcmd ⊢
    split_ifs at hcmd ⊢ with h1 h2 <;>
      exact ⟨(handle_gestures_zero_rearm _ now (by exact he) (by exact hc) (by exact ht)
          (by exact hpp) (by exact hv)).1,
        (handle_gestures_zero_rearm _ now (by exact he) (by exact hc) (by exact ht)
          (by exact hpp) (by exact hv)).2.1,
        (handle_gestures_zero_rearm _ now (by exact he) (by exact hc) (by exact ht)
          (by exact hpp) (by exact hv)).2.2, hcmd⟩
  · intro cs ts lm h now backend hcool he hc ht hpp hv
    have hcmd := frameStep_single_blocked cs ts lm h now backend hcool
    unfold frameStep at hcmd ⊢
    dsimp only at hcmd ⊢
    rw [if_neg (by simp)] at hcmd ⊢
    obtain ⟨cc, tt, hd⟩ := displayState_shape cs now backend
    rw [hd] at hcmd ⊢
    dsimp only at hcmd ⊢
    rw [show scrubPair (List.map mkHandData [lm]) = none from rfl] at hcmd ⊢
    dsimp only at hcmd ⊢
    rw [if_neg (by simp)] at hcmd ⊢
    dsimp only at hcmd ⊢
    split_ifs at hcmd ⊢ <;>
      first
        | exact ⟨(handle_gestures_zero_rearm _ now (by exact he) (by exact hc) (by exact ht)
              (by exact hpp) (by exact hv)).1,
            (handle_gestures_zero_rearm _ now (by exact he) (by exact hc) (by exact ht)
              (by exact hpp) (by exact hv)).2.1,
            (handle_gestures_zero_rearm _ now (by exact he) (by exact hc) (by exact ht)
              (by exact hpp) (by exact hv)).2.2, hcmd⟩
        | (exfalso
           rcases hcool with hcl | hcl | hcl <;>
             simp_all [post_scrub_cooldown, hand_appearance_cooldown] <;>
             omega)

/-- C10 witness: with candidate 0 held 1 second and all cooldowns expired at
t = 10000 ms, a zero-hand frame, a two-open-hand frame, a single-hand frame
inside the post-scrub cooldown, and a single-hand frame inside the appearance
cooldown (hand first seen at t = 9800 ms) all re-arm both gestures, clear the
last-direction memory, and emit nothing. -/
theorem spec_c10_witness :
    ((frameStep zeroHeldState initTrackerState [] 480 10000 none).ctrl.play_pause_armed = true ∧
      (frameStep zeroHeldState initTrackerState [] 480 10000
          none).ctrl.volume_gesture_armed = true ∧
      (frameStep zeroHeldState initTrackerState [] 480 10000
          none).ctrl.last_volume_gesture = none ∧
      (frameStep zeroHeldState initTrackerState [] 480 10000 none).commands = []) ∧
    ((frameStep { zeroHeldState with scrub_end_time := 9000 } initTrackerState [handOpen 100]
          480 10000 none).ctrl.play_pause_armed = true ∧
      (frameStep { zeroHeldState with scrub_end_time := 9000 } initTrackerState [handOpen 100]
          480 10000 none).ctrl.volume_gesture_armed = true ∧
      (frameStep { zeroHeldState with scrub_end_time := 9000 } initTrackerState [handOpen 100]
          480 10000 none).ctrl.last_volume_gesture = none ∧
      (frameStep { zeroHeldState with scrub_end_time := 9000 } initTrackerState [handOpen 100]
          480 10000 none).commands = []) ∧
    ((frameStep zeroHeldState initTrackerState [handOpen 100, handOpen 300] 480 10000
          none).ctrl.play_pause_armed = true ∧
      (frameStep zeroHeldState initTrackerState [handOpen 100, handOpen 300] 480 10000
          none).ctrl.volume_gesture_armed = true ∧
      (frameStep zeroHeldState initTrackerState [handOpen 100, handOpen 300] 480 10000
          none).ctrl.last_volume_gesture = none ∧
      (frameStep zeroHeldState initTrackerState [handOpen 100, handOpen 300] 480 10000
          none).commands = []) ∧
    ((frameStep { zeroHeldState with hand_was_visible := true, hand_first_seen_time := 9800 }
          initTrackerState [handOpen 100] 480 10000 none).ctrl.play_pause_armed = true ∧
      (frameStep { zeroHeldState with hand_was_visible := true, hand_first_seen_time := 9800 }
          initTrackerState [handOpen 100] 480 10000 none).ctrl.volume_gesture_armed = true ∧
      (frameStep { zeroHeldState with hand_was_visible := true, hand_first_seen_time := 9800 }
          initTrackerState [handOpen 100] 480 10000 none).ctrl.last_volume_gesture = none ∧
      (frameStep { zeroHeldState with hand_was_visible := true, hand_first_seen_time := 9800 }
          initTrackerState [handOpen 100] 480 10000 none).commands = []) :=
  ⟨spec_c10.1 zeroHeldState initTrackerState 480 10000 none (by decide) (by decide) (by decide)
      (by decide) (by decide),
    spec_c10.2.2 { zeroHeldState with scrub_end_time := 9000 } initTrackerState (handOpen 100)
      480 10000 none (by decide) (by decide) (by decide) (by decide) (by decide) (by decide),
    spec_c10.2.1 zeroHeldState initTrackerState (handOpen 100) (handOpen 300) 480 10000 none
      (by decide) (by decide) (by decide) (by decide) (by decide) (by decide),
    spec_c10.2.2 { zeroHeldState with hand_was_visible := true, hand_first_seen_time := 9800 }
      initTrackerState (handOpen 100) 480 10000 none (by decide) (by decide) (by decide)
      (by decide) (by decide) (by decide)⟩

set_option maxRecDepth 100000 in
/-- C3 counterexample: the scrub path is not blocked by the hand-appearance
cooldown.  After a zero-hands frame at t = 10000 ms, two scrub-eligible hands
appear at t = 10100 ms (recording the appearance time and entering scrub); at
t = 10300 ms — only 0.2s after the no-hands-to-hands transition, inside the
0.6s appearance cooldown — the control hand has moved 3px and a SeekTo command
is emitted, contradicting "no command at all is emitted" within 0.6s. -/
theorem spec_c3_counterexample :
    c3f1.ctrl.hand_was_visible = false ∧
      c3f2.ctrl.hand_was_visible = true ∧
      c3f2.ctrl.hand_first_seen_time = 10100 ∧
      c3f3.commands = [Command.seekTo 10750] ∧
      (10300 : ℤ) - c3f2.ctrl.hand_first_seen_time < hand_appearance_cooldown := by
  decide

/-- C3 (amended): on a transition from zero detected hands to any detected
hands the position history is cleared (at most the current frame's landmark
entry remains after the frame); for every single-hand frame within 0.6s of the
transition — including the transition frame itself — no command is emitted;
and two-hand non-scrub frames emit nothing.  Scrub entry and scrub seeks are
NOT blocked by the appearance cooldown, so a seek may still fire within the
0.6s window. -/
theorem spec_c3 :
    (∀ (cs : ControllerState) (ts : TrackerState) (hands : List Landmarks) (h : Int)
        (now : ℤ) (backend : Option TrackData), hands ≠ [] → cs.hand_was_visible = false →
      (frameStep cs ts hands h now backend).tracker.position_history.length ≤ 1) ∧
    (∀ (cs : ControllerState) (ts : TrackerState) (lm : Landmarks) (h : Int)
        (now : ℤ) (backend : Option TrackData),
      cs.hand_was_visible = false ∨ now - cs.hand_first_seen_time < hand_appearance_cooldown →
      (frameStep cs ts [lm] h now backend).commands = []) ∧
    (∀ (cs : ControllerState) (ts : TrackerState) (lm1 lm2 : Landmarks) (h : Int)
        (now : ℤ) (backend : Option TrackData),
      scrubPair [mkHandData lm1, mkHandData lm2] = none →
      (frameStep cs ts [lm1, lm2] h now backend).commands = []) :=
  ⟨fun cs ts hands h now backend hne hvis =>
      frameStep_transition_history cs ts hands h now backend hne hvis,
    fun cs ts lm h now backend hc =>
      frameStep_single_blocked cs ts lm h now backend (Or.inr hc),
    fun cs ts lm1 lm2 h now backend hsp =>
      frameStep_twohands_blocked cs ts lm1 lm2 h now backend hsp⟩

/-- C3 witness: a hand appearing at t = 10000 ms on a fresh controller leaves
at most one history entry and emits nothing, and a two-open-hand (non-scrub)
frame emits nothing. -/
theorem spec_c3_witness :
    (frameStep (initControllerState true) initTrackerState [handOpen 100] 480 10000
        none).tracker.position_history.length ≤ 1 ∧
      (frameStep (initControllerState true) initTrackerState [handOpen 100] 480 10000
        none).commands = [] ∧
      (frameStep (initControllerState true) initTrackerState [handOpen 100, handOpen 300] 480
        10000 none).commands = [] :=
  ⟨spec_c3.1 (initControllerState true) initTrackerState [handOpen 100] 480 10000 none
      (by decide) (by decide),
    spec_c3.2.1 (initControllerState true) initTrackerState (handOpen 100) 480 10000 none
      (Or.inl (by decide)),
    spec_c3.2.2 (initControllerState true) initTrackerState (handOpen 100) (handOpen 300) 480
      10000 none (by decide)⟩

set_option maxRecDepth 100000 in
/-- C4 counterexample: an exit from active scrubbing caused by all hands
disappearing does not record a scrub-end timestamp, and a single-hand swipe
then fires well inside 2.0s of the exit.  Scrubbing starts at t = 10000 ms;
at t = 10050 ms zero hands are detected and scrubbing_active is dropped while
scrub_end_time stays 0; a hand then sweeps rightwards and at t = 10800 ms —
0.75s after the exit — a NextTrack command is emitted despite a clean
swipe-shaped history being exactly the claimed blocked scenario. -/
theorem spec_c4_counterexample :
    c4g1.ctrl.scrubbing_active = true ∧
      c4g2.ctrl.scrubbing_active = false ∧
      c4g2.ctrl.scrub_end_time = 0 ∧
      c4g10.commands = [Command.nextTrack] ∧
      (10800 : ℤ) - 10050 < post_scrub_cooldown := by
  decide

/-- C4 (amended): an exit from active scrubbing on a frame where hands are
still visible records the scrub-end timestamp (scrub_end_time := now), and
for 2.0s after the recorded timestamp no single-hand frame emits any command;
but an exit caused by zero detected hands leaves scrub_end_time unchanged, so
no post-scrub cooldown protects the hand-withdrawal motion in that case. -/
theorem spec_c4 :
    (∀ (cs : ControllerState) (ts : TrackerState) (hands : List Landmarks) (h : Int)
        (now : ℤ) (backend : Option TrackData),
      hands ≠ [] → scrubPair (hands.map mkHandData) = none → cs.scrubbing_active = true →
      (frameStep cs ts hands h now backend).ctrl.scrub_end_time = now) ∧
    (∀ (cs : ControllerState) (ts : TrackerState) (lm : Landmarks) (h : Int)
        (now : ℤ) (backend : Option TrackData),
      now - cs.scrub_end_time < post_scrub_cooldown →
      (frameStep cs ts [lm] h now backend).commands = []) ∧
    (∀ (cs : ControllerState) (ts : TrackerState) (h : Int) (now : ℤ)
        (backend : Option TrackData),
      (frameStep cs ts [] h now backend).ctrl.scrub_end_time = cs.scrub_end_time) := by
  refine ⟨fun cs ts hands h now backend hne hsp hact =>
      frameStep_scrub_exit cs ts hands h now backend hne hsp hact,
    fun cs ts lm h now backend hc =>
      frameStep_single_blocked cs ts lm h now backend (Or.inl hc),
    fun cs ts h now backend => ?_⟩
  rw [frameStep_no_hands]
  dsimp only
  rw [handle_gestures_scrub_end]
  obtain ⟨cc, tt, hd⟩ := displayState_shape cs now backend
  rw [hd]

/-- C4 witness: a mid-scrub controller seeing one hand at t = 10000 ms records
scrub_end_time = 10000; a controller whose scrub ended at t = 9000 ms emits
nothing for a single hand at t = 10000 ms; a mid-scrub controller seeing zero
hands keeps its old scrub_end_time (0). -/
theorem spec_c4_witness :
    (frameStep activeScrubState initTrackerState [handOpen 100] 480 10000
        none).ctrl.scrub_end_time = 10000 ∧
      (frameStep postScrubState initTrackerState [handOpen 100] 480 10000
        none).commands = [] ∧
      (frameStep activeScrubState initTrackerState [] 480 10000
        none).ctrl.scrub_end_time = activeScrubState.scrub_end_time :=
  ⟨spec_c4.1 activeScrubState initTrackerState [handOpen 100] 480 10000 none (by decide)
      (by decide) (by decide),
    spec_c4.2.1 postScrubState initTrackerState (handOpen 100) 480 10000 none (by decide),
    spec_c4.2.2 activeScrubState initTrackerState 480 10000 none⟩

set_option maxRecDepth 100000 in
/-- C5: with backend credentials missing at startup (spotify_enabled = false),
the single-hand arbitration path is indeed suppressed (handle_gestures returns
immediately with no command and no state change), but a scrub-eligible
two-hand pose reaches get_track_info_cached, which dereferences the never-set
self.spotify attribute — a backend access the source would crash on
(AttributeError) — contradicting the claim that every frame is processed
without any backend call attempt. -/
theorem spec_c5 :
    (frameStep (initControllerState false) initTrackerState [handOpen 100, handPinch 300] 480
        10000 none).crashed = true ∧
      (frameStep (initControllerState false) initTrackerState [handOpen 100, handPinch 300] 480
        10000 none).commands = [] ∧
      handle_gestures (initControllerState false) (some Gesture.swipe_right) 1 10000 =
        (initControllerState false, []) ∧
      (frameStep (initControllerState false) initTrackerState [handOpen 100] 480 10000
        none).commands = [] ∧
      (frameStep (initControllerState false) initTrackerState [handOpen 100] 480 10000
        none).crashed = false := by
  decide

/-- C6: while scrubbing is active with recorded origin x and origin progress,
and with a fresh track-info cache holding track t, a frame with a
scrub-eligible hand pair issues a seek exactly when |delta_x * 250| > 500 ms
and more than 0.2s has elapsed since the last seek, where delta_x is the
control wrist x minus the origin x; the seek target is
origin_progress + delta_x * 250 clamped to [0, duration_ms - 1000]. -/
theorem spec_c6 (cs : ControllerState) (ts : TrackerState) (hands : List Landmarks)
    (h : Int) (now : ℤ) (backend : Option TrackData) (x0 p0 : Int) (t : TrackData)
    (trig ctl : HandData)
    (he : cs.spotify_enabled = true)
    (hsp : scrubPair (hands.map mkHandData) = some (trig, ctl))
    (hact : cs.scrubbing_active = true)
    (hx0 : cs.scrub_start_x = some x0)
    (hp0 : cs.scrub_start_progress = some p0)
    (hcache : now - cs.last_track_fetch_time ≤ track_fetch_interval)
    (hcached : cs.cached_track_info = some t) :
    (frameStep cs ts hands h now backend).commands =
      if ((ctl.wrist_x - x0) * 250).natAbs > 500 ∧ now - cs.last_scrub_time > 200 then
        [Command.seekTo (max 0 (min (p0 + (ctl.wrist_x - x0) * 250) (t.duration_ms - 1000)))]
      else [] := by
  have hne : hands ≠ [] := by
    intro hh
    rw [hh] at hsp
    simp [scrubPair] at hsp
  have hds : displayState cs now backend = cs := by
    unfold displayState get_track_info_cached
    rw [if_pos he, if_neg (not_lt.mpr hcache)]
  unfold frameStep
  dsimp only
  rw [if_neg hne, hds, hsp]
  try dsimp only
  set cs2 := (if cs.hand_was_visible = false then
      { cs with hand_first_seen_time := now, hand_was_visible := true } else cs) with hcs2
  have hact2 : cs2.scrubbing_active = true := by
    rw [hcs2]
    split_ifs <;> exact hact
  have hx2 : cs2.scrub_start_x = some x0 := by
    rw [hcs2]
    split_ifs <;> exact hx0
  have hp2 : cs2.scrub_start_progress = some p0 := by
    rw [hcs2]
    split_ifs <;> exact hp0
  have hlst : cs2.last_scrub_time = cs.last_scrub_time := by
    rw [hcs2]
    split_ifs <;> rfl
  have hltf : cs2.last_track_fetch_time = cs.last_track_fetch_time := by
    rw [hcs2]
    split_ifs <;> rfl
  have hcct : cs2.cached_track_info = some t := by
    rw [hcs2]
    split_ifs <;> exact hcached
  have hen2 : cs2.spotify_enabled = true := by
    rw [hcs2]
    split_ifs <;> exact he
  rw [if_neg (by rw [hact2]; simp), hx2, hp2]
  try dsimp only
  rw [hlst]
  have hfetch : get_track_info_cached cs2 now backend =
      { info := some t, ctrl := cs2, attempted := false } := by
    unfold get_track_info_cached
    rw [hltf, if_neg (not_lt.mpr hcache), hcct]
  split_ifs with hthr <;>
    first
      | rw [hfetch]
      | rfl

/-- C6 witness: mid-scrub at origin x = 300, origin progress = 10000 ms, with
the cache fetched at t = 10000 ms holding a 60s track, a frame at
t = 10300 ms whose control wrist sits at x = 303 gives delta_x = 3,
scrub_ms = 750 > 500 with the 0.2s interval elapsed, hence one SeekTo. -/
theorem spec_c6_witness :
    (frameStep scrubState initTrackerState [handOpen 100, handPinch 303] 480 10300
        none).commands =
      if (((mkHandData (handPinch 303)).wrist_x - 300) * 250).natAbs > 500 ∧
          (10300 : ℤ) - scrubState.last_scrub_time > 200 then
        [Command.seekTo (max 0 (min (10000 + ((mkHandData (handPinch 303)).wrist_x - 300) * 250)
          (demoTrack.duration_ms - 1000)))]
      else [] :=
  spec_c6 scrubState initTrackerState [handOpen 100, handPinch 303] 480 10300 none 300 10000
    demoTrack (mkHandData (handOpen 100)) (mkHandData (handPinch 303)) (by decide) (by decide)
    (by decide) (by decide) (by decide) (by decide) (by decide)

end GestureCtl
